import Mathlib

/-!
Shallow embedding of the pagefeed page-monitoring engine
(src/main.rs and src/extract.rs).

Timestamps (chrono::DateTime<Utc>) and durations (chrono::Duration) are
modelled as unbounded integers; what matters to the verified logic is only
their ordering and addition.  UUIDs are modelled as naturals.  Byte strings
(SHA3 body hashes, response bodies) are lists of naturals.

Effectful collaborators (the network, the RNG behind uuid::Uuid::new_v4,
the SHA3+regex body hash, the HTML selector engine and the jaq filter
engine) are passed in as explicit arguments, so every function here is the
pure core of the corresponding Rust function with its external inputs made
explicit.  A Rust panic (unwrap/expect on an error) is modelled as a
distinguished result, never silently mapped to an error return.
-/

/-- The `pages` table row, struct `Page` in src/main.rs (lines 18-35). -/
structure Page where
  slug : String
  name : String
  url : String
  check_interval : Int
  cooldown : Int
  last_checked : Option Int
  last_modified : Option Int
  last_error : Option String
  item_id : Option Nat
  http_etag : Option String
  http_body_hash : Option (List Nat)
  delete_regex : Option String
deriving DecidableEq

/-- enum `PageStatus` in src/main.rs (lines 257-262). -/
inductive PageStatus where
  | Unmodified : PageStatus
  | Modified (body_hash : List Nat) (etag : Option String) : PageStatus
  | FetchError (error : String) : PageStatus
deriving DecidableEq

/-- The outcome of `request.send()` in `check_page`: either a transport
error (reqwest::Error, rendered to a string by the caller) or a response
with a status code, an optional ETag header and a body. -/
inductive FetchResult where
  | err (msg : String) : FetchResult
  | response (status : Nat) (etag : Option String) (body : List Nat) : FetchResult
deriving DecidableEq

/-- fn `page_needs_checking` in src/main.rs (lines 281-286):
`page.last_checked.is_none() || now >= max(page.last_checked.unwrap() +
page.check_interval, page.last_modified.unwrap() + page.cooldown)`.
Rust `||` short-circuits, so when `last_checked` is `None` the unwraps are
never reached; when `last_checked` is `Some` but `last_modified` is `None`,
`last_modified.unwrap()` panics.  The panic is modelled as `none`. -/
def page_needs_checking (now : Int) (page : Page) : Option Bool :=
  match page.last_checked with
  | none => some true
  | some lc =>
    match page.last_modified with
    | none => none
    | some lm =>
      some (decide (now ≥ max (lc + page.check_interval) (lm + page.cooldown)))

/-- Modelled from the spec: "A resource is due when it has never been
checked, or when `now` exceeds the later of (`last_checked + interval`)
and (`last_modified + cooldown`)" (section 4.1), with "exceeds" read as
strict.  This definition exists only to be compared with
`page_needs_checking` above; a state with `last_checked` set but
`last_modified` unset is outside the spec's data-model invariant and is
mapped to `false`. -/
def isDue_spec (now : Int) (page : Page) : Bool :=
  match page.last_checked, page.last_modified with
  | none, _ => true
  | some lc, some lm =>
      decide (now > max (lc + page.check_interval) (lm + page.cooldown))
  | some _, none => false

/-- The response classification inside fn `check_page` (src/main.rs lines
300-313): a transport error becomes `FetchError` (via `format!("{:?}",
err)`, the rendering is the `msg` carried by `FetchResult.err`); a 304
response becomes `Unmodified`; any other response has its body hashed
(fn `hash`, lines 330-344: optional regex deletion then SHA3-256,
abstracted here as `hashFn`, which is an `Except` because reading the body
or compiling the regex can fail) and becomes `Modified`; a hashing error
becomes `FetchError`.  No status code other than 304 is inspected. -/
def check_page_response (hashFn : List Nat → Except String (List Nat))
    (res : FetchResult) : PageStatus :=
  match res with
  | .err msg => .FetchError msg
  | .response status etag body =>
    if status = 304 then .Unmodified
    else
      match hashFn body with
      | .ok h => .Modified h etag
      | .error e => .FetchError e

/-- The final `match status` of fn `check_page` (src/main.rs lines
315-325): a `Modified` whose body hash equals the stored
`http_body_hash` is demoted to `Unmodified`, a `FetchError` whose message
equals the stored `last_error` is demoted to `Unmodified`, everything
else passes through. -/
def classify_status (page : Page) (status : PageStatus) : PageStatus :=
  match status with
  | .Modified body_hash _ =>
      if page.http_body_hash = some body_hash then .Unmodified else status
  | .FetchError error =>
      if page.last_error = some error then .Unmodified else status
  | .Unmodified => status

/-- fn `check_page` in src/main.rs (lines 288-326), as a function of the
network outcome and the body-hash function. -/
def check_page (hashFn : List Nat → Except String (List Nat)) (page : Page)
    (res : FetchResult) : PageStatus :=
  classify_status page (check_page_response hashFn res)

/-- fn `update_page_unchanged` in src/main.rs (lines 397-408):
`set last_checked = current_timestamp`.  No other column is touched. -/
def update_page_unchanged (now : Int) (page : Page) : Page :=
  { page with last_checked := some now }

/-- fn `update_page_changed` in src/main.rs (lines 410-428):
`set last_checked = now, last_modified = now, last_error = null,
item_id = $1, http_etag = $2, http_body_hash = $3` where `$1` is a fresh
`uuid::Uuid::new_v4()`, passed here as the explicit `uuid` argument. -/
def update_page_changed (now : Int) (uuid : Nat) (page : Page)
    (new_etag : Option String) (new_hash : List Nat) : Page :=
  { page with
    last_checked := some now
    last_modified := some now
    last_error := none
    item_id := some uuid
    http_etag := new_etag
    http_body_hash := some new_hash }

/-- fn `update_page_error` in src/main.rs (lines 430-447):
`set last_checked = now, last_modified = now, last_error = $1,
item_id = $2, http_etag = null, http_body_hash = null` where `$2` is a
fresh `uuid::Uuid::new_v4()`, passed here as the explicit `uuid`
argument. -/
def update_page_error (now : Int) (uuid : Nat) (page : Page)
    (error : String) : Page :=
  { page with
    last_checked := some now
    last_modified := some now
    last_error := some error
    item_id := some uuid
    http_etag := none
    http_body_hash := none }

/-- The reconciliation step of fn `refresh_page` (src/main.rs lines
270-278) applied to a raw fetch status: the status is classified exactly
as `check_page` classifies it (lines 315-325) and the matching update is
applied.  `now` is `current_timestamp` and `uuid` the fresh
`uuid::Uuid::new_v4()` drawn by the update in question. -/
def reconcile (now : Int) (uuid : Nat) (page : Page)
    (status : PageStatus) : Page :=
  match classify_status page status with
  | .Unmodified => update_page_unchanged now page
  | .Modified body_hash etag => update_page_changed now uuid page etag body_hash
  | .FetchError error => update_page_error now uuid page error

/-- The invariant of spec section 8: `last_modified <= last_checked`,
vacuous when either timestamp is absent. -/
def lm_le_lc (page : Page) : Prop :=
  match page.last_modified, page.last_checked with
  | some lm, some lc => lm ≤ lc
  | _, _ => True

/-- One RSS `<item>` as assembled by `build_feed` via `rss::ItemBuilder`.
The RFC 2822 rendering of `pub_date` and the URN rendering of the guid are
injective formattings, kept here as the timestamp and a string built from
the uuid. -/
structure FeedItem where
  title : String
  description : String
  link : String
  pub_date : Int
  guid : String
deriving DecidableEq

/-- The RSS channel assembled by `build_feed` via `rss::ChannelBuilder`. -/
structure Channel where
  title : String
  link : String
  items : List FeedItem
deriving DecidableEq

/-- fn `describe_page_status` in src/main.rs (lines 229-233). -/
def describe_page_status (page : Page) : String :=
  match page.last_error with
  | some err => "Error while checking " ++ page.name ++ ": " ++ err
  | none => page.name ++ " was updated."

/-- fn `build_feed` in src/main.rs (lines 199-227): when `last_modified`
is set, exactly one item is built, whose guid is
`page.item_id.unwrap().to_urn()` — `none` models the panic of that unwrap
when `item_id` is absent; when `last_modified` is unset, the channel has
no items at all. -/
def build_feed (page : Page) : Option Channel :=
  match page.last_modified with
  | none => some { title := page.name, link := page.url, items := [] }
  | some lm =>
    match page.item_id with
    | none => none
    | some iid =>
      some { title := page.name
             link := page.url
             items := [{ title := page.name
                         description := describe_page_status page
                         link := page.url
                         pub_date := lm
                         guid := "urn:uuid:" ++ toString iid }] }

/-- Modelled from the spec: the `ItemBody` type of the crate root
(section 3 of the spec; used by src/extract.rs but declared in code
outside src/): plain text or pre-rendered markup. -/
inductive ItemBody where
  | Text (s : String) : ItemBody
  | Html (s : String) : ItemBody
deriving DecidableEq

/-- Modelled from the spec: the `Item` type of the crate root (section 3
of the spec; used by src/extract.rs but declared in code outside src/):
optional title, optional link URL, and a body. -/
structure Item where
  title : Option String
  url : Option String
  body : ItemBody
deriving DecidableEq

/-- The three possible results of running a piece of Rust code: a normal
return, an `Err` return (an extraction failure carried up with `?`), or a
panic (`unwrap`/`expect` on an error value). -/
inductive RunResult (α : Type) where
  | ok (val : α) : RunResult α
  | err (msg : String) : RunResult α
  | panicked (msg : String) : RunResult α
deriving DecidableEq

/-- True exactly on an `Err` return (a reported extraction failure). -/
def RunResult.isErr {α : Type} : RunResult α → Bool
  | .err _ => true
  | _ => false

/-- True exactly on a panic. -/
def RunResult.isPanicked {α : Type} : RunResult α → Bool
  | .panicked _ => true
  | _ => false

/-- One element matched by the item selector in `extract_multihtml`
(src/extract.rs lines 64-81), with the scraper engine's per-element
answers made explicit: the text of the first title-selector match (if
any), the inner HTML of the first text-selector match (falling back to
the item element itself, line 73 `unwrap_or(item_el)` — the fallback is
resolved into `body_inner_html`), and the `href`/`src` attributes of the
first url-selector match (same fallback, line 76). -/
structure ItemElement where
  title_text : Option String
  body_inner_html : String
  href : Option String
  src : Option String
deriving DecidableEq

/-- fn `extract_multihtml` in src/extract.rs (lines 45-83).  The four
`Selector::parse` results are passed in; on a parse error the code calls
`.expect("invalid ...")`, which panics (it does NOT return `Err`).
`Html::parse_document` is lenient and never fails, so the matched
elements are passed in as `elements`; each becomes one `Item` with an
HTML body and `url = href.or(src)` (line 79). -/
def extract_multihtml (item_sel title_sel text_sel url_sel : Except String Unit)
    (elements : List ItemElement) : RunResult (List Item) :=
  match item_sel with
  | .error _ => .panicked "invalid item_selector"
  | .ok _ =>
    match title_sel with
    | .error _ => .panicked "invalid title_selector"
    | .ok _ =>
      match text_sel with
      | .error _ => .panicked "invalid text_selector"
      | .ok _ =>
        match url_sel with
        | .error _ => .panicked "invalid url_selector"
        | .ok _ =>
          .ok (elements.map (fun el =>
            { title := el.title_text
              url := match el.href with
                     | some h => some h
                     | none => el.src
              body := ItemBody.Html el.body_inner_html }))

/-- One output value of the jaq filter as consumed by `extract_json`
(src/extract.rs lines 101-113): only its `text`, `title` and `url`
string fields are ever read (via `get_string_from_map`, lines 118-121),
so a `jaq_json::Val` is abstracted to those three lookups. -/
structure JaqVal where
  text : Option String
  title : Option String
  url : Option String
deriving DecidableEq

/-- fn `run_jaq` in src/extract.rs (lines 123-151).  `loader.load(...)`
and `Compiler::default()...compile(modules)` are both followed by
`.unwrap()`, which panics on a filter program that fails to load or
compile (it does NOT return `Err`); on success the filter's output
stream is collected with `.take(100)`. -/
def run_jaq (load_result compile_result : Except String Unit)
    (outputs : List (Except String JaqVal)) :
    RunResult (List (Except String JaqVal)) :=
  match load_result with
  | .error e => .panicked e
  | .ok _ =>
    match compile_result with
    | .error e => .panicked e
    | .ok _ => .ok (outputs.take 100)

/-- The per-output loop of fn `extract_json` (src/extract.rs lines
101-113): an `Err` output propagates as an extraction failure (line 102,
`item.map_err(|e| e.to_string())?`), a missing `text` field is the
failure "text key missing" (line 104), otherwise one `Item` with an HTML
body is produced. -/
def extract_json_items (vals : List (Except String JaqVal)) :
    RunResult (List Item) :=
  match vals with
  | [] => .ok []
  | .error e :: _ => .err e
  | .ok v :: rest =>
    match v.text with
    | none => .err "text key missing"
    | some t =>
      match extract_json_items rest with
      | .ok items =>
        .ok ({ title := v.title, url := v.url,
               body := ItemBody.Html t } :: items)
      | .err e => .err e
      | .panicked e => .panicked e

/-- fn `extract_json` in src/extract.rs (lines 85-116).  The
`serde_json::from_str` result is passed in: a JSON parse error returns
`Err` via `?` (line 98); then `run_jaq` runs (its panics propagate) and
the outputs are folded by `extract_json_items`. -/
def extract_json (json_parse : Except String Unit)
    (load_result compile_result : Except String Unit)
    (outputs : List (Except String JaqVal)) : RunResult (List Item) :=
  match json_parse with
  | .error e => .err e
  | .ok _ =>
    match run_jaq load_result compile_result outputs with
    | .panicked e => .panicked e
    | .err e => .err e
    | .ok vals => extract_json_items vals

/-- A concrete `pages` row used by witnesses and counterexamples below:
interval 2 time units, cooldown 0, never checked, no stored content. -/
def pg_base : Page :=
  { slug := "p"
    name := "P"
    url := "http://example.org/p"
    check_interval := 2
    cooldown := 0
    last_checked := none
    last_modified := none
    last_error := none
    item_id := none
    http_etag := none
    http_body_hash := none
    delete_regex := none }

/-- Claim C1: reconciling a `Modified` fetch outcome whose body hash
equals the stored `http_body_hash` is the `Unmodified` reduction: the
resulting row is the prior row with only `last_checked` set to `now`; in
particular `last_modified`, `http_body_hash` (the content identity) and
`item_id` (the source of the feed-entry guid) are untouched. -/
theorem reconcile_same_hash_only_advances_last_checked
    (now : Int) (uuid : Nat) (page : Page) (h : List Nat)
    (etag : Option String) (hh : page.http_body_hash = some h) :
    reconcile now uuid page (.Modified h etag) =
      { page with last_checked := some now } := by
  simp [reconcile, classify_status, hh, update_page_unchanged]

/-- Witness for C1 at a concrete page whose stored hash matches the
fetched hash. -/
theorem reconcile_same_hash_witness :
    reconcile 5 9 { pg_base with http_body_hash := some [1, 2] }
      (.Modified [1, 2] none) =
      { pg_base with http_body_hash := some [1, 2], last_checked := some 5 } :=
  reconcile_same_hash_only_advances_last_checked 5 9
    { pg_base with http_body_hash := some [1, 2] } [1, 2] none rfl

/-- Claim C2 counterexample: at the exact boundary where `now` equals
`max(last_checked + interval, last_modified + cooldown)`, the code
(`now >= max(...)`) says the page is due while the spec's "now exceeds
the later of ..." (strict, as `isDue_spec`) says it is not.  The claim's
"exactly when ... now is past the later" biconditional therefore fails
at this input. -/
theorem page_needs_checking_boundary_counterexample :
    page_needs_checking 0
      { pg_base with
        check_interval := 0
        last_checked := some 0
        last_modified := some 0 } = some true ∧
    isDue_spec 0
      { pg_base with
        check_interval := 0
        last_checked := some 0
        last_modified := some 0 } = false := by
  constructor <;> decide

/-- Claim C2 (amended): the refresh decision is true exactly when the
page has never been checked, or when `now` is AT OR past the later of
`last_checked + interval` and `last_modified + cooldown`; in particular
with interval 2, cooldown 0, last_checked = now-3 it is due; with
last_checked = now-1 it is not; with interval 1, cooldown 24,
last_modified = now-1 it is not (cooldown overrides interval). -/
theorem page_needs_checking_iff_due (now : Int) (page : Page) :
    (page.last_checked = none → page_needs_checking now page = some true) ∧
    (∀ lc lm, page.last_checked = some lc → page.last_modified = some lm →
      (page_needs_checking now page = some true ↔
        now ≥ max (lc + page.check_interval) (lm + page.cooldown))) ∧
    page_needs_checking 0
      { pg_base with last_checked := some (-3), last_modified := some (-3) }
      = some true ∧
    page_needs_checking 0
      { pg_base with last_checked := some (-1), last_modified := some (-1) }
      = some false ∧
    page_needs_checking 0
      { pg_base with
        check_interval := 1
        cooldown := 24
        last_checked := some (-1)
        last_modified := some (-1) }
      = some false := by
  refine ⟨?_, ?_, by decide, by decide, by decide⟩
  · intro h; simp [page_needs_checking, h]
  · intro lc lm hc hm; simp [page_needs_checking, hc, hm]

/-- Witness for C2 (amended) at the claim's first example: interval 2,
cooldown 0, last_checked = now - 3. -/
theorem page_needs_checking_iff_due_witness :
    page_needs_checking 0
      { pg_base with last_checked := some (-3), last_modified := some (-3) }
      = some true :=
  ((page_needs_checking_iff_due 0
      { pg_base with last_checked := some (-3), last_modified := some (-3) }).2.1
    (-3) (-3) rfl rfl).mpr (by decide)

/-- Claim C3 counterexample: a 404 response is not classified as
`FetchError "HTTP status 404"` — `check_page` inspects no status code
other than 304, hashes the body of the 404 page (here with the identity
hash function) and classifies it `Modified`. -/
theorem check_page_404_is_modified :
    check_page (fun b => .ok b) pg_base (.response 404 none [1, 2, 3]) =
      .Modified [1, 2, 3] none ∧
    check_page (fun b => .ok b) pg_base (.response 404 none [1, 2, 3]) ≠
      .FetchError "HTTP status 404" := by
  constructor
  · rfl
  · decide

/-- Claim C3 (amended): a 304 response yields `Unmodified`; every other
response, regardless of status code (including non-2xx), has its body
hashed and yields `Modified` when hashing succeeds and `FetchError`
with the hash error's message when it fails; a transport error yields
`FetchError` with its rendered message.  Non-2xx statuses are never
turned into a `FetchError "HTTP status <code>"`. -/
theorem check_page_response_classification
    (hashFn : List Nat → Except String (List Nat))
    (status : Nat) (etag : Option String) (body h : List Nat) (msg : String) :
    (check_page_response hashFn (.response 304 etag body) = .Unmodified) ∧
    (status ≠ 304 → hashFn body = .ok h →
      check_page_response hashFn (.response status etag body) =
        .Modified h etag) ∧
    (status ≠ 304 → hashFn body = .error msg →
      check_page_response hashFn (.response status etag body) =
        .FetchError msg) ∧
    (check_page_response hashFn (.err msg) = .FetchError msg) := by
  refine ⟨by simp [check_page_response], ?_, ?_, rfl⟩
  · intro hs hh; simp [check_page_response, hs, hh]
  · intro hs hh; simp [check_page_response, hs, hh]

/-- Witness for C3 (amended): a 404 response with a successful (identity)
hash is classified `Modified`. -/
theorem check_page_response_classification_witness :
    check_page_response (fun b => .ok b) (.response 404 none [7]) =
      .Modified [7] none :=
  (check_page_response_classification (fun b => .ok b)
    404 none [7] [7] "").2.1 (by decide) rfl

/-- Claim C4 counterexample: reconciling an `Unmodified` outcome does NOT
clear a stored error — `update_page_unchanged` only sets `last_checked`,
so the prior error survives. -/
theorem reconcile_unchanged_keeps_error :
    (reconcile 5 0 { pg_base with last_error := some "boom" }
      .Unmodified).last_error = some "boom" ∧
    (reconcile 5 0 { pg_base with last_error := some "boom" }
      .Unmodified).last_error ≠ none := by
  constructor
  · rfl
  · decide

/-- Claim C4 (amended): reconciling an `Unmodified` outcome advances
`last_checked` to `now` and leaves every other field — including any
stored error, the ETag token, the body hash, `last_modified` and
`item_id` — unchanged. -/
theorem reconcile_unchanged_frame (now : Int) (uuid : Nat) (page : Page) :
    reconcile now uuid page .Unmodified =
      { page with last_checked := some now } := rfl

/-- Claim C5: a `FetchError` whose message equals the stored `last_error`
is reconciled as `Unmodified` — only `last_checked` advances, in
particular `last_modified` is untouched; a `FetchError` with a different
message sets `last_checked` and `last_modified` to `now`, stores the
error, draws a fresh `item_id` and clears the ETag token (and the body
hash); consequently two consecutive failures with the same message leave
`last_modified` at the first failure's timestamp while `last_checked`
reaches the second's. -/
theorem reconcile_error_dedup
    (now now2 : Int) (uuid uuid2 : Nat) (page : Page) (msg : String) :
    (page.last_error = some msg →
      reconcile now uuid page (.FetchError msg) =
        { page with last_checked := some now }) ∧
    (page.last_error ≠ some msg →
      reconcile now uuid page (.FetchError msg) =
        { page with
          last_checked := some now
          last_modified := some now
          last_error := some msg
          item_id := some uuid
          http_etag := none
          http_body_hash := none }) ∧
    (page.last_error ≠ some msg →
      (reconcile now2 uuid2 (reconcile now uuid page (.FetchError msg))
        (.FetchError msg)).last_modified = some now ∧
      (reconcile now2 uuid2 (reconcile now uuid page (.FetchError msg))
        (.FetchError msg)).last_checked = some now2) := by
  refine ⟨?_, ?_, ?_⟩
  · intro h
    simp [reconcile, classify_status, h, update_page_unchanged]
  · intro h
    simp [reconcile, classify_status, h, update_page_error]
  · intro h
    simp [reconcile, classify_status, h, update_page_error,
      update_page_unchanged]

/-- Witness for C5: a first failure on a page with no stored error stores
the message and bumps both timestamps; a repeated identical failure then
leaves `last_modified` at 7 while `last_checked` reaches 8. -/
theorem reconcile_error_dedup_witness :
    reconcile 7 3 pg_base (.FetchError "connection refused") =
      { pg_base with
        last_checked := some 7
        last_modified := some 7
        last_error := some "connection refused"
        item_id := some 3
        http_etag := none
        http_body_hash := none } ∧
    (reconcile 8 4 (reconcile 7 3 pg_base (.FetchError "connection refused"))
      (.FetchError "connection refused")).last_modified = some 7 ∧
    (reconcile 8 4 (reconcile 7 3 pg_base (.FetchError "connection refused"))
      (.FetchError "connection refused")).last_checked = some 8 :=
  ⟨(reconcile_error_dedup 7 8 3 4 pg_base "connection refused").2.1 (by decide),
   (reconcile_error_dedup 7 8 3 4 pg_base "connection refused").2.2 (by decide)⟩

/-- Claim C6: under forward-moving time (the prior `last_modified`, when
present, is not in the future), every reconciliation — whichever of the
three updates it takes — yields a row satisfying
`last_modified <= last_checked`. -/
theorem reconcile_lm_le_lc
    (now : Int) (uuid : Nat) (page : Page) (status : PageStatus)
    (hm : ∀ t, page.last_modified = some t → t ≤ now) :
    lm_le_lc (reconcile now uuid page status) := by
  unfold reconcile
  cases classify_status page status with
  | Unmodified =>
    unfold update_page_unchanged lm_le_lc
    cases hlm : page.last_modified with
    | none => simp [hlm]
    | some t => simpa [hlm] using hm t hlm
  | Modified body_hash etag => simp [update_page_changed, lm_le_lc]
  | FetchError error => simp [update_page_error, lm_le_lc]

/-- Witness for C6: an `Unmodified` reconciliation at time 5 of a page
last modified at time 3 keeps the invariant. -/
theorem reconcile_lm_le_lc_witness :
    lm_le_lc (reconcile 5 0
      { pg_base with last_checked := some 1, last_modified := some 3 }
      .Unmodified) :=
  reconcile_lm_le_lc 5 0
    { pg_base with last_checked := some 1, last_modified := some 3 }
    .Unmodified (by intro t ht; simp at ht; omega)

/-- Claim C7 counterexample: the feed-entry identifier is NOT derived
from the content — `update_page_changed` stores a fresh
`uuid::Uuid::new_v4()`.  Reconciling the very same `Modified` content
from the very same prior state under two different RNG draws yields two
different `item_id`s, and hence two different feed guids. -/
theorem item_id_not_content_derived :
    (reconcile 5 1 pg_base (.Modified [7] none)).item_id ≠
      (reconcile 5 2 pg_base (.Modified [7] none)).item_id ∧
    build_feed (reconcile 5 1 pg_base (.Modified [7] none)) ≠
      build_feed (reconcile 5 2 pg_base (.Modified [7] none)) := by
  constructor <;> decide

/-- Claim C7 (amended): the identifier is a fresh random UUID stored at
each genuine change, and it is preserved while content stays identical:
after a change is recorded, re-fetching content with the same body hash
is reconciled as `Unmodified`, so the stored `item_id` — and therefore
the whole synthesized feed, guid included — is the same across the two
passes. -/
theorem identical_content_same_feed_guid
    (now1 now2 : Int) (u1 u2 : Nat) (page : Page)
    (h : List Nat) (e1 e2 : Option String)
    (hne : page.http_body_hash ≠ some h) :
    (reconcile now2 u2 (reconcile now1 u1 page (.Modified h e1))
      (.Modified h e2)).item_id =
      (reconcile now1 u1 page (.Modified h e1)).item_id ∧
    build_feed (reconcile now2 u2 (reconcile now1 u1 page (.Modified h e1))
      (.Modified h e2)) =
      build_feed (reconcile now1 u1 page (.Modified h e1)) := by
  constructor <;>
    simp [reconcile, classify_status, hne, update_page_changed,
      update_page_unchanged, build_feed, describe_page_status]

/-- Witness for C7 (amended): after recording a change with hash `[7]`
at time 5, a second fetch of the same hash at time 6 synthesizes the
identical feed. -/
theorem identical_content_same_feed_guid_witness :
    build_feed (reconcile 6 2 (reconcile 5 1 pg_base (.Modified [7] none))
      (.Modified [7] none)) =
      build_feed (reconcile 5 1 pg_base (.Modified [7] none)) :=
  (identical_content_same_feed_guid 5 6 1 2 pg_base [7] none none
    (by decide)).2

/-- Claim C8 counterexample: a page with no stored content and no error
(never successfully checked, `last_modified` unset) synthesizes a
channel with ZERO items — there is no synthetic "no items found" entry,
no `empty:<name>` identifier, and the feed does not always contain at
least one entry. -/
theorem build_feed_can_be_empty :
    (build_feed pg_base).map (fun c => c.items) = some [] ∧
    (build_feed pg_base).map (fun c => c.items.length) = some 0 := by
  constructor <;> rfl

/-- Claim C8 (amended): feed synthesis yields a channel with no entries
whenever `last_modified` is unset; only a page with `last_modified` set
gets its single entry.  No synthetic empty-case entry exists. -/
theorem build_feed_no_last_modified (page : Page)
    (hlm : page.last_modified = none) :
    build_feed page =
      some { title := page.name, link := page.url, items := [] } := by
  simp [build_feed, hlm]

/-- Witness for C8 (amended) at the concrete never-modified page. -/
theorem build_feed_no_last_modified_witness :
    build_feed pg_base =
      some { title := pg_base.name, link := pg_base.url, items := [] } :=
  build_feed_no_last_modified pg_base rfl

/-- Claim C9 counterexample: a malformed item selector does NOT surface
as an extraction failure — `Selector::parse(...).expect("invalid
item_selector")` panics, so `extract_multihtml` ends in a panic, not in
an `Err` return. -/
theorem extract_multihtml_bad_selector :
    (extract_multihtml (.error "bad") (.ok ()) (.ok ()) (.ok ()) []).isErr
      = false ∧
    (extract_multihtml (.error "bad") (.ok ()) (.ok ()) (.ok ())
      []).isPanicked = true ∧
    extract_multihtml (.error "bad") (.ok ()) (.ok ()) (.ok ()) [] =
      .panicked "invalid item_selector" := by
  refine ⟨rfl, rfl, rfl⟩

/-- Claim C9 (amended): un-parseable JSON, a filter evaluation error and
a missing required `text` field surface as extraction failures (`Err`)
with a descriptive message, but a malformed selector panics via
`expect`, and a filter program that fails to load or compile panics via
`unwrap` — those two error classes do NOT come back as failures. -/
theorem extract_error_paths
    (e : String) (ts xs us : Except String Unit)
    (els : List ItemElement) (lr cr : Except String Unit)
    (outs : List (Except String JaqVal))
    (v : JaqVal) (rest : List (Except String JaqVal)) :
    (extract_multihtml (.error e) ts xs us els =
      .panicked "invalid item_selector") ∧
    (extract_json (.error e) lr cr outs = .err e) ∧
    (extract_json (.ok ()) (.error e) cr outs = .panicked e) ∧
    (extract_json (.ok ()) (.ok ()) (.error e) outs = .panicked e) ∧
    (extract_json (.ok ()) (.ok ()) (.ok ()) (.error e :: rest) = .err e) ∧
    (v.text = none →
      extract_json (.ok ()) (.ok ()) (.ok ()) (.ok v :: rest) =
        .err "text key missing") := by
  refine ⟨rfl, rfl, rfl, rfl, rfl, ?_⟩
  intro hv
  simp [extract_json, run_jaq, extract_json_items, hv]

/-- Witness for C9 (amended): a concrete malformed selector panics, and a
concrete filter output lacking the `text` field is the failure
"text key missing". -/
theorem extract_error_paths_witness :
    extract_multihtml (.error "x") (.ok ()) (.ok ()) (.ok ()) [] =
      .panicked "invalid item_selector" ∧
    extract_json (.ok ()) (.ok ()) (.ok ())
      [.ok { text := none, title := none, url := none }] =
      .err "text key missing" :=
  ⟨(extract_error_paths "x" (.ok ()) (.ok ()) (.ok ()) [] (.ok ()) (.ok ())
      [] { text := none, title := none, url := none } []).1,
   (extract_error_paths "x" (.ok ()) (.ok ()) (.ok ()) [] (.ok ()) (.ok ())
      [] { text := none, title := none, url := none } []).2.2.2.2.2 rfl⟩

/-- Claim C10: `page_needs_checking` is only total on rows satisfying the
data-model invariant — when `last_checked` is set but `last_modified` is
absent it panics on `last_modified.unwrap()` (modelled as `none`), and
when `last_modified` is set whenever `last_checked` is, it never
panics. -/
theorem page_needs_checking_requires_last_modified (now : Int) (page : Page) :
    (∀ t, page.last_checked = some t → page.last_modified = none →
      page_needs_checking now page = none) ∧
    ((∀ t, page.last_checked = some t → page.last_modified ≠ none) →
      page_needs_checking now page ≠ none) := by
  constructor
  · intro t hc hm
    simp [page_needs_checking, hc, hm]
  · intro hinv
    cases hc : page.last_checked with
    | none => simp [page_needs_checking, hc]
    | some t =>
      cases hm : page.last_modified with
      | none => exact absurd hm (hinv t hc)
      | some lm => simp [page_needs_checking, hc, hm]

/-- Witness for C10: a concrete row checked at time 1 with
`last_modified` absent makes the scheduler panic. -/
theorem page_needs_checking_requires_last_modified_witness :
    page_needs_checking 0 { pg_base with last_checked := some 1 } = none :=
  (page_needs_checking_requires_last_modified 0
    { pg_base with last_checked := some 1 }).1 1 rfl rfl
